import Mathlib

/-!
# vocacion-api: the routes of `server.js`

A shallow embedding of the Express handlers of `src/server.js` and of the SQL
statements they hand to `db.query`.

Modelling conventions

* A JavaScript string is a Lean `String`; `toUpperCase` upper-cases the ASCII
  letters and `split("")` yields the characters. The two agree with
  JavaScript on strings of ASCII characters; outside ASCII JavaScript applies
  the full Unicode case mapping (which can lengthen the string) and cuts
  UTF-16 code units, which the model does not follow. Statements are
  therefore phrased through `toUpperCase` and `split` of the input, and the
  concrete inputs are ASCII.
* `req.query.code` is `undefined`, a string, or an array of strings (a repeated
  query key); `req.params.dimension` is a string.
* The MySQL server is a value `Servidor`: the three tables the match
  statements read, and an optional failure (lost connection, ...) that makes
  every statement fail with that error.
* String comparison inside SQL (`=`, `LIKE`, `ORDER BY c.nombre`) is the
  comparison of a binary collation: characters are equal when they are the
  same character, names are ordered lexicographically by character.
* `db.query(sql, values, cb)` substitutes the values for the `?` placeholders
  by position, the way `SqlString.format` does: the i-th placeholder takes the
  i-th value, surplus values are ignored, and a placeholder with no value stays
  in the statement, which the server then rejects as a syntax error.
* `UNION` drops every row that repeats an earlier row and keeps the others in
  the order in which the two parenthesised blocks are appended.
* A handler run is a `Resultado`: how many statements it handed to `db.query`
  and what it answered.
-/

namespace Vocacion

/-! ## JavaScript values -/

/-- The method `String.prototype.toUpperCase` on ASCII strings: the letters `a` to `z` are
upper-cased, every other character is kept (JavaScript also maps letters outside ASCII). -/
def toUpperCase (s : String) : String :=
  String.mk (s.data.map Char.toUpper)

/-- The call `s.split("")` on ASCII strings: the characters of `s`, one element each
(JavaScript cuts UTF-16 code units, two for a character beyond the basic plane). -/
def split (s : String) : List Char :=
  s.data

/-- A value of `req.query.code`. -/
inductive QueryValue where
  | undefined
  | str (s : String)
  | arr (xs : List String)
  deriving DecidableEq, Repr

/-- JavaScript truthiness: `undefined` and `""` are falsy, every array is truthy. -/
def QueryValue.truthy : QueryValue → Bool
  | .undefined => false
  | .str s => s.data ≠ []
  | .arr _ => true

/-- The property `length` of a string or an array (`undefined` is never asked). -/
def QueryValue.length : QueryValue → Nat
  | .undefined => 0
  | .str s => s.data.length
  | .arr xs => xs.length

/-- The error object a failed statement hands to the callback of `db.query`. -/
structure DbError where
  code : String
  errno : Nat
  message : String
  deriving DecidableEq, Repr

/-- What a handler passes to `res.json`: the rows of a statement, a string, an
error object, or an object literal with one key. -/
inductive Json (ρ : Type) where
  | rows (data : ρ)
  | str (s : String)
  | err (e : DbError)
  | obj1 (key : String) (value : Json ρ)
  deriving DecidableEq, Repr

/-- How a handler run ends: `res.status(s).json(body)` (`res.json(body)` is status
200), or an exception that leaves the handler. -/
inductive Salida (ρ : Type) where
  | json (status : Nat) (body : Json ρ)
  | typeError (mensaje : String)
  deriving DecidableEq, Repr

/-- A handler run: the number of statements handed to `db.query`, and the answer. -/
structure Resultado (ρ : Type) where
  consultas : Nat
  salida : Salida ρ
  deriving DecidableEq, Repr

/-! ## The tables -/

/-- A row of `carreras`. -/
structure Carrera where
  id_carrera : Nat
  nombre : String
  riasec : String
  deriving DecidableEq, Repr

/-- A row of `instituciones`. -/
structure Institucion where
  id_institucion : Nat
  nombre : String
  tipo : String
  deriving DecidableEq, Repr

/-- A row of `institucion_carrera`. -/
structure InstitucionCarrera where
  id_institucion : Nat
  id_carrera : Nat
  deriving DecidableEq, Repr

/-- The tables read by the two match statements. -/
structure Tablas where
  carreras : List Carrera
  institucion_carrera : List InstitucionCarrera
  instituciones : List Institucion
  deriving DecidableEq, Repr

/-- The MySQL server behind `db`. -/
structure Servidor where
  fallo : Option DbError
  tablas : Tablas
  deriving DecidableEq, Repr

/-- The error of a statement that still holds a `?` when it reaches the server. -/
def errorDeSintaxis : DbError :=
  { code := "ER_PARSE_ERROR", errno := 1064, message := "You have an error in your SQL syntax" }

/-! ## SQL -/

/-- The matcher behind `LIKE`, on character lists: `%` matches any run of
characters, `_` matches one character, a backslash makes the next pattern
character literal (`esc` says that the previous pattern character was such a
backslash); a backslash that ends the pattern matches itself. -/
def likeAux : Bool → List Char → List Char → Bool
  | _, [], s => s.isEmpty
  | true, c :: p, s =>
    match s with
    | [] => false
    | x :: t => decide (x = c) && likeAux false p t
  | false, c :: p, s =>
    if c = '%' then s.tails.any (fun t => likeAux false p t)
    else if c = '_' then
      match s with
      | [] => false
      | _ :: t => likeAux false p t
    else if c = '\\' then
      if p.isEmpty then decide (s = ['\\']) else likeAux true p s
    else
      match s with
      | [] => false
      | x :: t => decide (x = c) && likeAux false p t

/-- The operator `LIKE`: `like pattern s` is `s LIKE pattern`. -/
def like (pattern s : List Char) : Bool :=
  likeAux false pattern s

/-- The term `(c.riasec LIKE CONCAT('%', ?, '%'))` with the placeholder bound to `p`: 1 or 0. -/
def coincide (riasec : String) (p : Char) : Nat :=
  if like ('%' :: p :: ['%']) riasec.data then 1 else 0

/-- The sort key of `ORDER BY`: the sum of the three `LIKE` terms. -/
def puntaje (a b c : Char) (riasec : String) : Nat :=
  coincide riasec a + coincide riasec b + coincide riasec c

/-- The clause `FROM carreras c JOIN institucion_carrera ic ON c.id_carrera = ic.id_carrera
JOIN instituciones i ON ic.id_institucion = i.id_institucion`. -/
def join (t : Tablas) : List (Carrera × Institucion) :=
  t.carreras.flatMap fun c =>
    (t.institucion_carrera.filter fun ic => c.id_carrera = ic.id_carrera).flatMap fun ic =>
      (t.instituciones.filter fun i => ic.id_institucion = i.id_institucion).map fun i => (c, i)

/-- The joined rows with `WHERE i.tipo = tipo`. -/
def candidatos (tipo : String) (t : Tablas) : List (Carrera × Institucion) :=
  (join t).filter fun ci => ci.2.tipo = tipo

/-- The order of `ORDER BY (…) DESC, c.nombre`: higher sum first, then the name ascending. -/
def antes (a b c : Char) (x y : Carrera × Institucion) : Prop :=
  puntaje a b c y.1.riasec < puntaje a b c x.1.riasec ∨
    (puntaje a b c x.1.riasec = puntaje a b c y.1.riasec ∧ x.1.nombre.data ≤ y.1.nombre.data)

instance (a b c : Char) : DecidableRel (antes a b c) :=
  fun _ _ => inferInstanceAs (Decidable (_ ∨ _))

/-- A row of the `/match_riasec` statement. -/
structure FilaMatch where
  nombre_carrera : String
  riasec : String
  nombre_institucion : String
  tipo : String
  deriving DecidableEq, Repr

/-- The select list `c.nombre AS nombre_carrera, c.riasec, i.nombre AS nombre_institucion, i.tipo`. -/
def filaMatch (ci : Carrera × Institucion) : FilaMatch :=
  { nombre_carrera := ci.1.nombre, riasec := ci.1.riasec,
    nombre_institucion := ci.2.nombre, tipo := ci.2.tipo }

/-- The rows of a category in the order of `ORDER BY`. -/
def ordenados (tipo : String) (a b c : Char) (t : Tablas) : List (Carrera × Institucion) :=
  (candidatos tipo t).insertionSort (antes a b c)

/-- One parenthesised `SELECT … WHERE i.tipo = tipo ORDER BY … LIMIT 5`. -/
def bloque (tipo : String) (a b c : Char) (t : Tablas) : List FilaMatch :=
  ((ordenados tipo a b c t).take 5).map filaMatch

/-- The duplicate removal of `UNION`: a row equal to an earlier row is dropped. -/
def distinct {α : Type} [DecidableEq α] : List α → List α
  | [] => []
  | x :: xs => x :: (distinct xs).filter fun y => y ≠ x

/-- Placeholder substitution for a statement with `n` placeholders: the i-th
placeholder takes the i-th value, or stays unbound when the values run out. -/
def format {α : Type} (n : Nat) (values : List α) : List (Option α) :=
  (List.range n).map fun i => values[i]?

/-- The `/match_riasec` statement on the server, its six placeholders as bound by `format`. -/
def queryMatch (slots : List (Option Char)) (srv : Servidor) : Except DbError (List FilaMatch) :=
  match srv.fallo with
  | some err => .error err
  | none =>
    match slots with
    | [some a, some b, some c, some d, some e, some f] =>
      .ok (distinct (bloque "Universidad" a b c srv.tablas ++ bloque "Instituto" d e f srv.tablas))
    | _ => .error errorDeSintaxis

/-! ## The handlers -/

/-- The handler of `GET /match_riasec`. -/
def match_riasec (code : QueryValue) (srv : Servidor) : Resultado (List FilaMatch) :=
  if !code.truthy || code.length < 1 then
    ⟨0, .json 400 (.obj1 "error" (.str "Código RIASEC inválido"))⟩
  else
    match code with
    | .str s =>
      let letras := split (toUpperCase s)
      let params := letras ++ letras
      match queryMatch (format 6 params) srv with
      | .error err => ⟨1, .json 500 (.obj1 "error" (.err err))⟩
      | .ok data => ⟨1, .json 200 (.rows data)⟩
    | _ => ⟨0, .typeError "code.toUpperCase is not a function"⟩

/-- The array `dimensionesValidas`. -/
def dimensionesValidas : List String :=
  ["R", "I", "A", "S", "E", "C"]

/-- A row of the `/match/:dimension` statement. -/
structure Sugerencia where
  nombre_carrera : String
  nombre_institucion : String
  deriving DecidableEq, Repr

/-- The select list `c.nombre AS nombre_carrera, i.nombre AS nombre_institucion`. -/
def sugerencia (ci : Carrera × Institucion) : Sugerencia :=
  { nombre_carrera := ci.1.nombre, nombre_institucion := ci.2.nombre }

/-- The order of `ORDER BY c.nombre`. -/
def porNombre (x y : Carrera × Institucion) : Prop :=
  x.1.nombre.data ≤ y.1.nombre.data

instance : DecidableRel porNombre :=
  fun _ _ => inferInstanceAs (Decidable (_ ≤ _))

/-- The function `obtenerSugerenciasPorDimension`: the joined rows with
`WHERE c.riasec = ?`, `ORDER BY c.nombre`; the promise resolves or rejects. -/
def obtenerSugerenciasPorDimension (dimension : String) (srv : Servidor) :
    Except DbError (List Sugerencia) :=
  match srv.fallo with
  | some err => .error err
  | none =>
    .ok ((((join srv.tablas).filter fun ci => ci.1.riasec = dimension).insertionSort
      porNombre).map sugerencia)

/-- The handler of `GET /match/:dimension`. -/
def match_dimension (param : String) (srv : Servidor) : Resultado (List Sugerencia) :=
  let dimension := toUpperCase param
  if !dimensionesValidas.contains dimension then
    ⟨0, .json 400 (.obj1 "error" (.str "Dimensión RIASEC inválida"))⟩
  else
    match obtenerSugerenciasPorDimension dimension srv with
    | .ok sugerencias => ⟨1, .json 200 (.rows sugerencias)⟩
    | .error err => ⟨1, .json 500 (.obj1 "error" (.str err.message))⟩

/-- The handler of `GET /departamentos`, on the outcome of its statement. -/
def getDepartamentos {ρ : Type} (outcome : Except DbError ρ) : Resultado ρ :=
  match outcome with
  | .error err => ⟨1, .json 500 (.err err)⟩
  | .ok result => ⟨1, .json 200 (.rows result)⟩

/-- The handler of `GET /provincias/:id_departamento`, on the outcome of its statement. -/
def getProvincias {ρ : Type} (outcome : Except DbError ρ) : Resultado ρ :=
  match outcome with
  | .error err => ⟨1, .json 500 (.err err)⟩
  | .ok result => ⟨1, .json 200 (.rows result)⟩

/-- The handler of `GET /instituciones/:id_provincia`, on the outcome of its statement. -/
def getInstituciones {ρ : Type} (outcome : Except DbError ρ) : Resultado ρ :=
  match outcome with
  | .error err => ⟨1, .json 500 (.obj1 "error" (.err err))⟩
  | .ok data => ⟨1, .json 200 (.rows data)⟩

/-- The handler of `GET /carreras/:id_institucion`, on the outcome of its statement. -/
def getCarreras {ρ : Type} (outcome : Except DbError ρ) : Resultado ρ :=
  match outcome with
  | .error err => ⟨1, .json 500 (.obj1 "error" (.err err))⟩
  | .ok result => ⟨1, .json 200 (.rows result)⟩

/-! ## The ranking of the specification -/

/-- The score as the specification words it: the number of positions among the
three letters whose letter occurs in the candidate's code. -/
def aciertos (a b c : Char) (riasec : String) : Nat :=
  ([a, b, c].filter fun l => l ∈ riasec.data).length

/-- The ranking as the specification words it: score descending, then program name ascending. -/
def rankingSpec (a b c : Char) (x y : Carrera × Institucion) : Prop :=
  aciertos a b c y.1.riasec < aciertos a b c x.1.riasec ∨
    (aciertos a b c x.1.riasec = aciertos a b c y.1.riasec ∧ x.1.nombre.data ≤ y.1.nombre.data)

/-- The six letters of the RIASEC alphabet. -/
def alfabeto : List Char :=
  ['R', 'I', 'A', 'S', 'E', 'C']

/-- A character that `LIKE` reads as itself: not `%`, not `_`, not the backslash. -/
def literal (c : Char) : Prop :=
  c ≠ '%' ∧ c ≠ '_' ∧ c ≠ '\\'

instance (c : Char) : Decidable (literal c) :=
  inferInstanceAs (Decidable (_ ∧ _))

/-- The block of a category in an answer of `GET /match_riasec`: its rows of that category,
in their order. -/
def delTipo (tipo : String) (filas : List FilaMatch) : List FilaMatch :=
  filas.filter fun f => f.tipo = tipo

/-! ## Example tables -/

/-- Three programs, a university offering all of them and an institute offering two. -/
def tablasEjemplo : Tablas :=
  { carreras := [⟨1, "Enfermeria", "S"⟩, ⟨2, "Psicologia", "SIA"⟩, ⟨3, "Arte", "A"⟩],
    institucion_carrera := [⟨10, 1⟩, ⟨10, 2⟩, ⟨10, 3⟩, ⟨20, 1⟩, ⟨20, 3⟩],
    instituciones := [⟨10, "UNSA", "Universidad"⟩, ⟨20, "TECSUP", "Instituto"⟩] }

/-- The rows `GET /match_riasec?code=sia` answers with on `tablasEjemplo`. -/
def filasEjemplo : List FilaMatch :=
  [⟨"Psicologia", "SIA", "UNSA", "Universidad"⟩, ⟨"Arte", "A", "UNSA", "Universidad"⟩,
    ⟨"Enfermeria", "S", "UNSA", "Universidad"⟩, ⟨"Arte", "A", "TECSUP", "Instituto"⟩,
    ⟨"Enfermeria", "S", "TECSUP", "Instituto"⟩]

/-- A program of code `R` and a program of code `RI`, offered by a university and by a
police school. -/
def tablasDimension : Tablas :=
  { carreras := [⟨1, "Mecanica", "R"⟩, ⟨2, "Ingenieria Civil", "RI"⟩],
    institucion_carrera := [⟨10, 1⟩, ⟨10, 2⟩, ⟨30, 1⟩],
    instituciones := [⟨10, "UNSA", "Universidad"⟩, ⟨30, "ETS PNP", "Escuela Policial"⟩] }

/-- Two universities of the same name offering the same program. -/
def tablasRepetidas : Tablas :=
  { carreras := [⟨1, "Derecho", "ES"⟩],
    institucion_carrera := [⟨10, 1⟩, ⟨11, 1⟩],
    instituciones := [⟨10, "Universidad Nacional", "Universidad"⟩,
      ⟨11, "Universidad Nacional", "Universidad"⟩] }

/-! ## Lemmas -/

theorem like_nil (s : List Char) : like [] s = s.isEmpty := by
  rw [like, likeAux]

theorem like_cons_percent (p s : List Char) :
    like ('%' :: p) s = s.tails.any (fun t => like p t) := by
  simp only [like, likeAux, if_true]

theorem like_cons_literal (c : Char) (hc : literal c) (p s : List Char) :
    like (c :: p) s = match s with
      | [] => false
      | x :: t => decide (x = c) && like p t := by
  obtain ⟨h1, h2, h3⟩ := hc
  simp only [like, likeAux, h1, h2, h3, if_false]

theorem like_percent (s : List Char) : like ['%'] s = true := by
  rw [like_cons_percent]
  induction s with
  | nil => simp [like_nil]
  | cons x t ih => simp [List.tails, ih]

theorem like_literal_percent (c : Char) (hc : literal c) (s : List Char) :
    like [c, '%'] s = decide (s.head? = some c) := by
  rw [like_cons_literal c hc]
  cases s with
  | nil => simp
  | cons x t => simp [like_percent]

theorem like_contains (c : Char) (hc : literal c) (s : List Char) :
    like ['%', c, '%'] s = decide (c ∈ s) := by
  rw [like_cons_percent]
  induction s with
  | nil => simp [like_literal_percent c hc]
  | cons x t ih =>
    rw [List.tails, List.any_cons, ih, like_literal_percent c hc]
    by_cases hx : x = c <;> simp [hx, eq_comm]

theorem coincide_literal (c : Char) (hc : literal c) (riasec : String) :
    coincide riasec c = if c ∈ riasec.data then 1 else 0 := by
  simp [coincide, like_contains c hc]

theorem puntaje_eq_aciertos (a b c : Char) (ha : literal a) (hb : literal b) (hc : literal c)
    (riasec : String) : puntaje a b c riasec = aciertos a b c riasec := by
  simp only [puntaje, aciertos, coincide_literal _ ha, coincide_literal _ hb,
    coincide_literal _ hc, List.filter]
  by_cases h1 : a ∈ riasec.data <;> by_cases h2 : b ∈ riasec.data <;>
    by_cases h3 : c ∈ riasec.data <;> simp [h1, h2, h3]

theorem antes_eq_rankingSpec (a b c : Char) (ha : literal a) (hb : literal b) (hc : literal c) :
    antes a b c = rankingSpec a b c := by
  funext x y
  simp only [antes, rankingSpec, puntaje_eq_aciertos a b c ha hb hc]

theorem antes_total (a b c : Char) (x y : Carrera × Institucion) :
    antes a b c x y ∨ antes a b c y x := by
  unfold antes
  rcases lt_trichotomy (puntaje a b c x.1.riasec) (puntaje a b c y.1.riasec) with h | h | h
  · exact Or.inr (Or.inl h)
  · rcases le_total x.1.nombre.data y.1.nombre.data with hn | hn
    · exact Or.inl (Or.inr ⟨h, hn⟩)
    · exact Or.inr (Or.inr ⟨h.symm, hn⟩)
  · exact Or.inl (Or.inl h)

theorem antes_trans (a b c : Char) (x y z : Carrera × Institucion) :
    antes a b c x y → antes a b c y z → antes a b c x z := by
  unfold antes
  rintro (h1 | ⟨h1, n1⟩) (h2 | ⟨h2, n2⟩)
  · exact Or.inl (lt_trans h2 h1)
  · exact Or.inl (h2 ▸ h1)
  · exact Or.inl (h1 ▸ h2)
  · exact Or.inr ⟨h1.trans h2, le_trans n1 n2⟩

theorem ordenados_sorted (tipo : String) (a b c : Char) (t : Tablas) :
    (ordenados tipo a b c t).Sorted (antes a b c) := by
  haveI : IsTotal (Carrera × Institucion) (antes a b c) := ⟨antes_total a b c⟩
  haveI : IsTrans (Carrera × Institucion) (antes a b c) := ⟨antes_trans a b c⟩
  exact List.sorted_insertionSort _ _

theorem porNombre_sorted (l : List (Carrera × Institucion)) :
    (l.insertionSort porNombre).Sorted porNombre := by
  haveI : IsTotal (Carrera × Institucion) porNombre :=
    ⟨fun x y => le_total x.1.nombre.data y.1.nombre.data⟩
  haveI : IsTrans (Carrera × Institucion) porNombre := ⟨fun _ _ _ h1 h2 => le_trans h1 h2⟩
  exact List.sorted_insertionSort _ _

theorem mem_join (t : Tablas) (c : Carrera) (i : Institucion) :
    (c, i) ∈ join t ↔ c ∈ t.carreras ∧ i ∈ t.instituciones ∧
      ∃ ic ∈ t.institucion_carrera,
        c.id_carrera = ic.id_carrera ∧ ic.id_institucion = i.id_institucion := by
  simp only [join, List.mem_flatMap, List.mem_filter, List.mem_map, decide_eq_true_eq,
    Prod.mk.injEq]
  constructor
  · rintro ⟨c', hc, ic, ⟨hic, e1⟩, i', ⟨hi, e2⟩, rfl, rfl⟩
    exact ⟨hc, hi, ic, hic, e1, e2⟩
  · rintro ⟨hc, hi, ic, hic, e1, e2⟩
    exact ⟨c, hc, ic, ⟨hic, e1⟩, i, ⟨hi, e2⟩, rfl, rfl⟩

theorem distinct_sublist {α : Type} [DecidableEq α] (l : List α) : (distinct l).Sublist l := by
  induction l with
  | nil => exact List.Sublist.refl _
  | cons x xs ih =>
    rw [distinct]
    exact List.Sublist.cons₂ x ((List.filter_sublist _).trans ih)

theorem distinct_of_nodup {α : Type} [DecidableEq α] (l : List α) (h : l.Nodup) :
    distinct l = l := by
  induction l with
  | nil => rfl
  | cons x xs ih =>
    rw [List.nodup_cons] at h
    rw [distinct, ih h.2, List.filter_eq_self.2]
    intro y hy
    have : y ≠ x := fun e => h.1 (e ▸ hy)
    simpa using this

theorem distinct_append {α : Type} [DecidableEq α] (l r : List α)
    (h : ∀ x ∈ l, x ∉ r) : distinct (l ++ r) = distinct l ++ distinct r := by
  induction l with
  | nil => rfl
  | cons x xs ih =>
    have hx : x ∉ distinct r := fun hm => h x (List.mem_cons_self _ _) ((distinct_sublist r).subset hm)
    have hr : (distinct r).filter (fun y => y ≠ x) = distinct r := by
      rw [List.filter_eq_self]
      intro y hy
      have : y ≠ x := fun e => hx (e ▸ hy)
      simpa using this
    rw [List.cons_append, distinct, distinct, ih (fun y hy => h y (List.mem_cons_of_mem _ hy)),
      List.filter_append, hr, List.cons_append]

theorem format_six {α : Type} (l : List α) :
    format 6 l = [l[0]?, l[1]?, l[2]?, l[3]?, l[4]?, l[5]?] := by
  rfl

theorem bloque_length (tipo : String) (a b c : Char) (t : Tablas) :
    (bloque tipo a b c t).length = min 5 (candidatos tipo t).length := by
  simp [bloque, ordenados, List.length_insertionSort]

theorem bloque_tipo (tipo : String) (a b c : Char) (t : Tablas) :
    ∀ f ∈ bloque tipo a b c t, f.tipo = tipo := by
  intro f hf
  simp only [bloque, ordenados, List.mem_map] at hf
  obtain ⟨ci, hci, rfl⟩ := hf
  have h1 := (List.mem_insertionSort _).1 (List.mem_of_mem_take hci)
  simp only [candidatos, List.mem_filter, decide_eq_true_eq] at h1
  exact h1.2

theorem queryMatch_ok (slots : List (Option Char)) (srv : Servidor) (filas : List FilaMatch)
    (h : queryMatch slots srv = .ok filas) :
    ∃ a b c d e f, slots = [some a, some b, some c, some d, some e, some f] ∧
      srv.fallo = none ∧
      filas = distinct (bloque "Universidad" a b c srv.tablas ++
        bloque "Instituto" d e f srv.tablas) := by
  unfold queryMatch at h
  split at h
  · cases h
  · rename_i hf
    split at h
    · rename_i a b c d e f
      injection h with h
      exact ⟨a, b, c, d, e, f, rfl, hf, h.symm⟩
    · cases h

theorem match_riasec_rows (code : QueryValue) (srv : Servidor) (filas : List FilaMatch)
    (h : (match_riasec code srv).salida = .json 200 (.rows filas)) :
    ∃ s, code = .str s ∧
      queryMatch (format 6 (split (toUpperCase s) ++ split (toUpperCase s))) srv = .ok filas := by
  unfold match_riasec at h
  split at h
  · simp at h
  · split at h
    · rename_i s _
      refine ⟨s, rfl, ?_⟩
      simp only at h
      split at h
      · simp at h
      · rename_i data hq
        simp only [Salida.json.injEq, Json.rows.injEq, true_and] at h
        rw [hq, h]
    · simp at h

theorem union_blocks (a b c d e f : Char) (t : Tablas) :
    distinct (bloque "Universidad" a b c t ++ bloque "Instituto" d e f t) =
      distinct (bloque "Universidad" a b c t) ++ distinct (bloque "Instituto" d e f t) := by
  apply distinct_append
  intro x hx hx2
  have h1 := bloque_tipo _ _ _ _ _ x hx
  have h2 := bloque_tipo _ _ _ _ _ x hx2
  rw [h1] at h2
  exact absurd h2 (by decide)

theorem delTipo_universidad (a b c d e f : Char) (t : Tablas) :
    delTipo "Universidad" (distinct (bloque "Universidad" a b c t ++
      bloque "Instituto" d e f t)) = distinct (bloque "Universidad" a b c t) := by
  have h1 : (distinct (bloque "Universidad" a b c t)).filter
      (fun f => f.tipo = "Universidad") = distinct (bloque "Universidad" a b c t) := by
    rw [List.filter_eq_self]
    intro r hr
    rw [decide_eq_true_eq]
    exact bloque_tipo _ _ _ _ _ r ((distinct_sublist _).subset hr)
  have h2 : (distinct (bloque "Instituto" d e f t)).filter
      (fun f => f.tipo = "Universidad") = [] := by
    rw [List.filter_eq_nil_iff]
    intro r hr
    rw [decide_eq_true_eq, bloque_tipo _ _ _ _ _ r ((distinct_sublist _).subset hr)]
    decide
  rw [union_blocks, delTipo, List.filter_append, h1, h2, List.append_nil]

theorem delTipo_instituto (a b c d e f : Char) (t : Tablas) :
    delTipo "Instituto" (distinct (bloque "Universidad" a b c t ++
      bloque "Instituto" d e f t)) = distinct (bloque "Instituto" d e f t) := by
  have h1 : (distinct (bloque "Instituto" d e f t)).filter
      (fun f => f.tipo = "Instituto") = distinct (bloque "Instituto" d e f t) := by
    rw [List.filter_eq_self]
    intro r hr
    rw [decide_eq_true_eq]
    exact bloque_tipo _ _ _ _ _ r ((distinct_sublist _).subset hr)
  have h2 : (distinct (bloque "Universidad" a b c t)).filter
      (fun f => f.tipo = "Instituto") = [] := by
    rw [List.filter_eq_nil_iff]
    intro r hr
    rw [decide_eq_true_eq, bloque_tipo _ _ _ _ _ r ((distinct_sublist _).subset hr)]
    decide
  rw [union_blocks, delTipo, List.filter_append, h1, h2, List.nil_append]

theorem match_riasec_bound (s : String) (a b c : Char) (t : Tablas)
    (hs : split (toUpperCase s) = [a, b, c]) :
    match_riasec (.str s) ⟨none, t⟩ =
      ⟨1, .json 200 (.rows (distinct (bloque "Universidad" a b c t ++
        bloque "Instituto" a b c t)))⟩ := by
  have hne : s.data ≠ [] := by
    intro h
    simp [split, toUpperCase, h] at hs
  have hpos : ¬ s.length = 0 := by
    have h1 := List.length_pos.2 hne
    have h2 : s.length = s.data.length := rfl
    omega
  simp [match_riasec, QueryValue.truthy, QueryValue.length, hne, hpos, hs, format_six,
    queryMatch]

/-! ## The claims -/

/-- C1, refuted: two universities of the same name offer the same program, so the
category has n = 2 candidates; at the code `ESC` the University block of the
answer holds one row, not min(5, 2) = 2, and it is the first five rows of no
ordering of the two candidates. -/
theorem match_riasec_returned_block_not_prefix :
    match_riasec (.str "ESC") ⟨none, tablasRepetidas⟩ =
        ⟨1, .json 200 (.rows [⟨"Derecho", "ES", "Universidad Nacional", "Universidad"⟩])⟩ ∧
      (candidatos "Universidad" tablasRepetidas).length = 2 ∧
      (delTipo "Universidad"
        [⟨"Derecho", "ES", "Universidad Nacional", "Universidad"⟩]).length = 1 ∧
      ∀ orden : List (Carrera × Institucion),
        orden.Perm (candidatos "Universidad" tablasRepetidas) →
        (orden.take 5).map filaMatch ≠
          delTipo "Universidad" [⟨"Derecho", "ES", "Universidad Nacional", "Universidad"⟩] := by
  refine ⟨by decide, by decide, by decide, ?_⟩
  intro orden hperm heq
  have hlen := congrArg List.length heq
  have h2 : orden.length = 2 := hperm.length_eq.trans (by decide)
  rw [List.length_map, List.length_take, h2] at hlen
  revert hlen
  decide

/-- C1, amended: for a code whose upper-cased form is three characters that
`LIKE` reads literally (three letters are such), on a healthy server
`GET /match_riasec` answers with rows, and for University and for Institute
the block of the category in the answer is the first min(5, n) rows of an
ordering of the n candidates of that category that is sorted by score
descending and then by program name ascending, without the rows that repeat
an earlier row of it; when no row of that prefix repeats, the block is the
prefix itself and has min(5, n) rows. The score is the number of the three
upper-cased letters that occur in the candidate's code, counted per position. -/
theorem match_riasec_blocks_ranked (s : String) (a b c : Char) (t : Tablas)
    (hs : split (toUpperCase s) = [a, b, c])
    (ha : literal a) (hb : literal b) (hc : literal c) :
    ∃ filas : List FilaMatch,
      match_riasec (.str s) ⟨none, t⟩ = ⟨1, .json 200 (.rows filas)⟩ ∧
      ∀ tipo : String, tipo = "Universidad" ∨ tipo = "Instituto" →
        ∃ orden : List (Carrera × Institucion),
          orden.Perm (candidatos tipo t) ∧
          orden.Sorted (rankingSpec a b c) ∧
          (orden.take 5).length = min 5 (candidatos tipo t).length ∧
          delTipo tipo filas = distinct ((orden.take 5).map filaMatch) ∧
          (((orden.take 5).map filaMatch).Nodup →
            delTipo tipo filas = (orden.take 5).map filaMatch ∧
            (delTipo tipo filas).length = min 5 (candidatos tipo t).length) := by
  refine ⟨_, match_riasec_bound s a b c t hs, ?_⟩
  intro tipo htipo
  have hblock : delTipo tipo (distinct (bloque "Universidad" a b c t ++
      bloque "Instituto" a b c t)) = distinct (bloque tipo a b c t) := by
    rcases htipo with rfl | rfl
    · exact delTipo_universidad _ _ _ _ _ _ _
    · exact delTipo_instituto _ _ _ _ _ _ _
  have hlen : ((ordenados tipo a b c t).take 5).length = min 5 (candidatos tipo t).length := by
    simp [ordenados, List.length_insertionSort]
  refine ⟨ordenados tipo a b c t, List.perm_insertionSort _ _, ?_, hlen, hblock, ?_⟩
  · rw [← antes_eq_rankingSpec _ _ _ ha hb hc]
    exact ordenados_sorted _ _ _ _ _
  · intro hn
    have hd : distinct (bloque tipo a b c t) = bloque tipo a b c t := distinct_of_nodup _ hn
    rw [hblock, hd]
    exact ⟨rfl, bloque_length _ _ _ _ _⟩

/-- C1 amended, at the code `sia` on the example tables. -/
theorem match_riasec_blocks_ranked_witness :
    split (toUpperCase "sia") = ['S', 'I', 'A'] ∧ literal 'S' ∧ literal 'I' ∧ literal 'A' ∧
      match_riasec (.str "sia") ⟨none, tablasEjemplo⟩ = ⟨1, .json 200 (.rows filasEjemplo)⟩ ∧
      ∃ filas : List FilaMatch,
        match_riasec (.str "sia") ⟨none, tablasEjemplo⟩ = ⟨1, .json 200 (.rows filas)⟩ ∧
        ∀ tipo : String, tipo = "Universidad" ∨ tipo = "Instituto" →
          ∃ orden : List (Carrera × Institucion),
            orden.Perm (candidatos tipo tablasEjemplo) ∧
            orden.Sorted (rankingSpec 'S' 'I' 'A') ∧
            (orden.take 5).length = min 5 (candidatos tipo tablasEjemplo).length ∧
            delTipo tipo filas = distinct ((orden.take 5).map filaMatch) ∧
            (((orden.take 5).map filaMatch).Nodup →
              delTipo tipo filas = (orden.take 5).map filaMatch ∧
              (delTipo tipo filas).length = min 5 (candidatos tipo tablasEjemplo).length) :=
  ⟨by decide, by decide, by decide, by decide, by decide,
    match_riasec_blocks_ranked "sia" 'S' 'I' 'A' tablasEjemplo (by decide) (by decide)
      (by decide) (by decide)⟩

/-- C5: whenever `GET /match_riasec` answers with rows, there are at most 10 of
them, at most 5 of category `Universidad`, at most 5 of category `Instituto`,
and none of another category. -/
theorem match_riasec_at_most_ten (code : QueryValue) (srv : Servidor) (filas : List FilaMatch)
    (h : (match_riasec code srv).salida = .json 200 (.rows filas)) :
    filas.length ≤ 10 ∧
      (filas.filter fun f => f.tipo = "Universidad").length ≤ 5 ∧
      (filas.filter fun f => f.tipo = "Instituto").length ≤ 5 ∧
      ∀ f ∈ filas, f.tipo = "Universidad" ∨ f.tipo = "Instituto" := by
  obtain ⟨s, -, hq⟩ := match_riasec_rows code srv filas h
  obtain ⟨a, b, c, d, e, f, -, -, rfl⟩ := queryMatch_ok _ _ _ hq
  rw [union_blocks]
  have hU := bloque_tipo "Universidad" a b c srv.tablas
  have hI := bloque_tipo "Instituto" d e f srv.tablas
  have sU := distinct_sublist (bloque "Universidad" a b c srv.tablas)
  have sI := distinct_sublist (bloque "Instituto" d e f srv.tablas)
  have lU : (distinct (bloque "Universidad" a b c srv.tablas)).length ≤ 5 :=
    sU.length_le.trans (by rw [bloque_length]; exact min_le_left _ _)
  have lI : (distinct (bloque "Instituto" d e f srv.tablas)).length ≤ 5 :=
    sI.length_le.trans (by rw [bloque_length]; exact min_le_left _ _)
  have nU : (distinct (bloque "Universidad" a b c srv.tablas)).filter
      (fun f => f.tipo = "Instituto") = [] := by
    rw [List.filter_eq_nil_iff]
    intro r hr
    rw [decide_eq_true_eq, hU r (sU.subset hr)]
    decide
  have nI : (distinct (bloque "Instituto" d e f srv.tablas)).filter
      (fun f => f.tipo = "Universidad") = [] := by
    rw [List.filter_eq_nil_iff]
    intro r hr
    rw [decide_eq_true_eq, hI r (sI.subset hr)]
    decide
  refine ⟨?_, ?_, ?_, ?_⟩
  · rw [List.length_append]; omega
  · rw [List.filter_append, nI, List.append_nil]
    exact (List.length_filter_le _ _).trans lU
  · rw [List.filter_append, nU, List.nil_append]
    exact (List.length_filter_le _ _).trans lI
  · intro r hr
    rcases List.mem_append.1 hr with hr | hr
    · exact Or.inl (hU r (sU.subset hr))
    · exact Or.inr (hI r (sI.subset hr))

/-- C5, at the code `sia` on the example tables. -/
theorem match_riasec_at_most_ten_witness :
    (match_riasec (.str "sia") ⟨none, tablasEjemplo⟩).salida = .json 200 (.rows filasEjemplo) ∧
      (filasEjemplo.length ≤ 10 ∧
        (filasEjemplo.filter fun f => f.tipo = "Universidad").length ≤ 5 ∧
        (filasEjemplo.filter fun f => f.tipo = "Instituto").length ≤ 5 ∧
        ∀ f ∈ filasEjemplo, f.tipo = "Universidad" ∨ f.tipo = "Instituto") :=
  ⟨by decide, match_riasec_at_most_ten (.str "sia") ⟨none, tablasEjemplo⟩ filasEjemplo (by decide)⟩

/-- C2: on the example tables the four-letter code `RIAS` and its first three
letters `RIA` get different answers: the fourth value of `params` lands in the
first placeholder of the Institute block, which is then scored with `S`, `R`,
`I` and ranks Enfermeria before Arte, whereas `RIA` ranks Arte before Enfermeria. -/
theorem match_riasec_fourth_letter_shifts_institute :
    format 6 (split (toUpperCase "RIAS") ++ split (toUpperCase "RIAS")) =
        [some 'R', some 'I', some 'A', some 'S', some 'R', some 'I'] ∧
      (match_riasec (.str "RIAS") ⟨none, tablasEjemplo⟩).salida =
        .json 200 (.rows [⟨"Psicologia", "SIA", "UNSA", "Universidad"⟩,
          ⟨"Arte", "A", "UNSA", "Universidad"⟩, ⟨"Enfermeria", "S", "UNSA", "Universidad"⟩,
          ⟨"Enfermeria", "S", "TECSUP", "Instituto"⟩, ⟨"Arte", "A", "TECSUP", "Instituto"⟩]) ∧
      (match_riasec (.str "RIA") ⟨none, tablasEjemplo⟩).salida =
        .json 200 (.rows [⟨"Psicologia", "SIA", "UNSA", "Universidad"⟩,
          ⟨"Arte", "A", "UNSA", "Universidad"⟩, ⟨"Enfermeria", "S", "UNSA", "Universidad"⟩,
          ⟨"Arte", "A", "TECSUP", "Instituto"⟩, ⟨"Enfermeria", "S", "TECSUP", "Instituto"⟩]) ∧
      match_riasec (.str "RIAS") ⟨none, tablasEjemplo⟩ ≠
        match_riasec (.str "RIA") ⟨none, tablasEjemplo⟩ := by
  decide

/-- C3: a code of one or of two characters leaves placeholders of the statement
unbound, so on a healthy server the statement is rejected and the answer is
status 500 with the syntax error, whatever the tables hold. -/
theorem match_riasec_short_code_fails (x y : Char) (t : Tablas) :
    match_riasec (.str (String.mk [x])) ⟨none, t⟩ =
        ⟨1, .json 500 (.obj1 "error" (.err errorDeSintaxis))⟩ ∧
      match_riasec (.str (String.mk [x, y])) ⟨none, t⟩ =
        ⟨1, .json 500 (.obj1 "error" (.err errorDeSintaxis))⟩ := by
  constructor <;>
    simp [match_riasec, QueryValue.truthy, QueryValue.length, toUpperCase, split, format_six,
      queryMatch]

/-- C4, refuted: two universities of the same name offer the same program, the
University block holds two equal rows, and the answer holds one of them. -/
theorem match_riasec_union_drops_repeated_row :
    bloque "Universidad" 'E' 'S' 'C' tablasRepetidas ++
        bloque "Instituto" 'E' 'S' 'C' tablasRepetidas =
        [⟨"Derecho", "ES", "Universidad Nacional", "Universidad"⟩,
          ⟨"Derecho", "ES", "Universidad Nacional", "Universidad"⟩] ∧
      match_riasec (.str "ESC") ⟨none, tablasRepetidas⟩ =
        ⟨1, .json 200 (.rows [⟨"Derecho", "ES", "Universidad Nacional", "Universidad"⟩])⟩ ∧
      (match_riasec (.str "ESC") ⟨none, tablasRepetidas⟩).salida ≠
        .json 200 (.rows (bloque "Universidad" 'E' 'S' 'C' tablasRepetidas ++
          bloque "Instituto" 'E' 'S' 'C' tablasRepetidas)) := by
  decide

/-- C4, amended: whenever `GET /match_riasec` answers with rows, the rows are the
University block followed by the Institute block, each without the rows that
repeat an earlier row of it; nothing is added or reordered, every University
row precedes every Institute row, and when no row of the two blocks repeats
the answer is the two blocks one after the other. -/
theorem match_riasec_union_of_blocks (s : String) (srv : Servidor) (filas : List FilaMatch)
    (h : (match_riasec (.str s) srv).salida = .json 200 (.rows filas)) :
    ∃ a b c d e f : Char,
      format 6 (split (toUpperCase s) ++ split (toUpperCase s)) =
        [some a, some b, some c, some d, some e, some f] ∧
      filas = distinct (bloque "Universidad" a b c srv.tablas) ++
        distinct (bloque "Instituto" d e f srv.tablas) ∧
      (distinct (bloque "Universidad" a b c srv.tablas)).Sublist
        (bloque "Universidad" a b c srv.tablas) ∧
      (distinct (bloque "Instituto" d e f srv.tablas)).Sublist
        (bloque "Instituto" d e f srv.tablas) ∧
      (∀ r ∈ distinct (bloque "Universidad" a b c srv.tablas), r.tipo = "Universidad") ∧
      (∀ r ∈ distinct (bloque "Instituto" d e f srv.tablas), r.tipo = "Instituto") ∧
      ((bloque "Universidad" a b c srv.tablas ++ bloque "Instituto" d e f srv.tablas).Nodup →
        filas = bloque "Universidad" a b c srv.tablas ++
          bloque "Instituto" d e f srv.tablas) := by
  obtain ⟨s', hs, hq⟩ := match_riasec_rows _ srv filas h
  cases hs
  obtain ⟨a, b, c, d, e, f, hslots, -, rfl⟩ := queryMatch_ok _ _ _ hq
  refine ⟨a, b, c, d, e, f, hslots, union_blocks _ _ _ _ _ _ _, distinct_sublist _,
    distinct_sublist _, ?_, ?_, ?_⟩
  · exact fun r hr => bloque_tipo _ _ _ _ _ r ((distinct_sublist _).subset hr)
  · exact fun r hr => bloque_tipo _ _ _ _ _ r ((distinct_sublist _).subset hr)
  · exact fun hn => distinct_of_nodup _ hn

/-- C4 amended, at the code `sia` on the example tables. -/
theorem match_riasec_union_of_blocks_witness :
    (match_riasec (.str "sia") ⟨none, tablasEjemplo⟩).salida = .json 200 (.rows filasEjemplo) ∧
      ∃ a b c d e f : Char,
        format 6 (split (toUpperCase "sia") ++ split (toUpperCase "sia")) =
          [some a, some b, some c, some d, some e, some f] ∧
        filasEjemplo = distinct (bloque "Universidad" a b c tablasEjemplo) ++
          distinct (bloque "Instituto" d e f tablasEjemplo) :=
  ⟨by decide,
    let ⟨a, b, c, d, e, f, h1, h2, _⟩ :=
      match_riasec_union_of_blocks "sia" ⟨none, tablasEjemplo⟩ filasEjemplo (by decide)
    ⟨a, b, c, d, e, f, h1, h2⟩⟩

/-- C6: for a dimension whose upper-cased form is one of the six letters, on a
healthy server `GET /match/:dimension` answers with status 200 and with exactly
the (program name, institution name) pairs of the program-institution
associations whose program code equals the upper-cased dimension as a whole
string, one pair per association, whatever the category of the institution and
however many there are, in ascending order of the program name. -/
theorem match_dimension_exact_rows (param : String) (t : Tablas)
    (h : toUpperCase param ∈ dimensionesValidas) :
    ∃ filas : List Sugerencia,
      match_dimension param ⟨none, t⟩ = ⟨1, .json 200 (.rows filas)⟩ ∧
      filas.Perm (((join t).filter fun ci => ci.1.riasec = toUpperCase param).map sugerencia) ∧
      filas.Sorted (fun f g => f.nombre_carrera.data ≤ g.nombre_carrera.data) ∧
      ∀ f : Sugerencia, f ∈ filas ↔
        ∃ c ∈ t.carreras, ∃ i ∈ t.instituciones, ∃ ic ∈ t.institucion_carrera,
          c.id_carrera = ic.id_carrera ∧ ic.id_institucion = i.id_institucion ∧
          c.riasec = toUpperCase param ∧ f = ⟨c.nombre, i.nombre⟩ := by
  have hperm := (List.perm_insertionSort porNombre
    ((join t).filter fun ci => ci.1.riasec = toUpperCase param)).map sugerencia
  refine ⟨_, ?_, hperm, ?_, ?_⟩
  · have hc : dimensionesValidas.contains (toUpperCase param) = true := by
      simpa using h
    simp only [match_dimension, hc, obtenerSugerenciasPorDimension]
    rfl
  · have hs := porNombre_sorted ((join t).filter fun ci => ci.1.riasec = toUpperCase param)
    unfold List.Sorted at hs ⊢
    rw [List.pairwise_map]
    exact hs
  · intro f
    rw [hperm.mem_iff, List.mem_map]
    constructor
    · rintro ⟨⟨c, i⟩, hci, rfl⟩
      rw [List.mem_filter, mem_join, decide_eq_true_eq] at hci
      obtain ⟨⟨hc, hi, ic, hic, e1, e2⟩, hr⟩ := hci
      exact ⟨c, hc, i, hi, ic, hic, e1, e2, hr, rfl⟩
    · rintro ⟨c, hc, i, hi, ic, hic, e1, e2, hr, rfl⟩
      refine ⟨(c, i), ?_, rfl⟩
      rw [List.mem_filter, mem_join, decide_eq_true_eq]
      exact ⟨⟨hc, hi, ic, hic, e1, e2⟩, hr⟩

/-- C6, at the dimension `r`: the program of code `R` is listed once per
institution offering it, the program of code `RI` is not listed. -/
theorem match_dimension_exact_rows_witness :
    toUpperCase "r" ∈ dimensionesValidas ∧
      match_dimension "r" ⟨none, tablasDimension⟩ =
        ⟨1, .json 200 (.rows [⟨"Mecanica", "UNSA"⟩, ⟨"Mecanica", "ETS PNP"⟩])⟩ ∧
      ∃ filas : List Sugerencia,
        match_dimension "r" ⟨none, tablasDimension⟩ = ⟨1, .json 200 (.rows filas)⟩ ∧
        filas.Perm (((join tablasDimension).filter fun ci =>
          ci.1.riasec = toUpperCase "r").map sugerencia) :=
  ⟨by decide, by decide,
    let ⟨filas, h1, h2, _⟩ := match_dimension_exact_rows "r" tablasDimension (by decide)
    ⟨filas, h1, h2⟩⟩

/-- C7: `GET /match/:dimension` answers with status 400 and the message of an
invalid dimension, having issued no statement, exactly when the upper-cased
parameter is not one of `R`, `I`, `A`, `S`, `E`, `C`; `x` is rejected and `r`
is accepted. -/
theorem match_dimension_rejects_iff (param : String) (srv : Servidor) :
    (match_dimension param srv =
          ⟨0, .json 400 (.obj1 "error" (.str "Dimensión RIASEC inválida"))⟩ ↔
        toUpperCase param ∉ dimensionesValidas) ∧
      ((∃ body, (match_dimension param srv).salida = .json 400 body) ↔
        toUpperCase param ∉ dimensionesValidas) ∧
      ((match_dimension param srv).consultas = 0 ↔ toUpperCase param ∉ dimensionesValidas) ∧
      match_dimension "x" srv =
        ⟨0, .json 400 (.obj1 "error" (.str "Dimensión RIASEC inválida"))⟩ ∧
      (match_dimension "r" srv).consultas = 1 ∧
      ∀ body, (match_dimension "r" srv).salida ≠ .json 400 body := by
  have key : ∀ p : String, toUpperCase p ∈ dimensionesValidas →
      (match_dimension p srv).consultas = 1 ∧
        ∀ body, (match_dimension p srv).salida ≠ .json 400 body := by
    intro p hp
    have hc : dimensionesValidas.contains (toUpperCase p) = true := by
      simpa using hp
    simp only [match_dimension, hc]
    cases obtenerSugerenciasPorDimension (toUpperCase p) srv <;> simp
  have rej : ∀ p : String, toUpperCase p ∉ dimensionesValidas →
      match_dimension p srv =
        ⟨0, .json 400 (.obj1 "error" (.str "Dimensión RIASEC inválida"))⟩ := by
    intro p hp
    have hc : dimensionesValidas.contains (toUpperCase p) = false := by
      simpa using hp
    simp only [match_dimension, hc]
    rfl
  refine ⟨⟨?_, rej param⟩, ⟨?_, ?_⟩, ⟨?_, ?_⟩, rej "x" (by decide), key "r" (by decide)⟩
  · intro he hv
    have := (key param hv).1
    rw [he] at this
    cases this
  · rintro ⟨body, hb⟩ hv
    exact (key param hv).2 body hb
  · intro hn
    exact ⟨_, congrArg Resultado.salida (rej param hn)⟩
  · intro h0 hv
    have := (key param hv).1
    omega
  · intro hn
    rw [rej param hn]

/-- C8: a repeated query key makes `code` an array; the guard lets a non-empty
array through and `code.toUpperCase` throws, so the answer is not the 400 of an
invalid code, while a missing and an empty code do get it; no statement is
issued in any of the three runs. -/
theorem match_riasec_array_not_rejected (srv : Servidor) :
    match_riasec (.arr ["RI", "A"]) srv =
        ⟨0, .typeError "code.toUpperCase is not a function"⟩ ∧
      match_riasec .undefined srv =
        ⟨0, .json 400 (.obj1 "error" (.str "Código RIASEC inválido"))⟩ ∧
      match_riasec (.str "") srv =
        ⟨0, .json 400 (.obj1 "error" (.str "Código RIASEC inválido"))⟩ := by
  refine ⟨rfl, rfl, rfl⟩

/-- C9: when its statement fails with `e`, `GET /departamentos` (and
`GET /provincias/:id_departamento`) answers 500 with `e` itself as the body,
not an object with the key `error`; the other four routes answer 500 with an
object whose key `error` holds `e` or, for `GET /match/:dimension`, its message. -/
theorem departamentos_error_body_unwrapped (ρ : Type) (e : DbError) (t : Tablas) :
    getDepartamentos (Except.error e : Except DbError ρ) = ⟨1, .json 500 (.err e)⟩ ∧
      getProvincias (Except.error e : Except DbError ρ) = ⟨1, .json 500 (.err e)⟩ ∧
      (∀ v : Json ρ, Json.err e ≠ Json.obj1 "error" v) ∧
      getInstituciones (Except.error e : Except DbError ρ) =
        ⟨1, .json 500 (.obj1 "error" (.err e))⟩ ∧
      getCarreras (Except.error e : Except DbError ρ) =
        ⟨1, .json 500 (.obj1 "error" (.err e))⟩ ∧
      match_riasec (.str "RIA") ⟨some e, t⟩ = ⟨1, .json 500 (.obj1 "error" (.err e))⟩ ∧
      match_dimension "R" ⟨some e, t⟩ = ⟨1, .json 500 (.obj1 "error" (.str e.message))⟩ := by
  refine ⟨rfl, rfl, fun v hv => Json.noConfusion hv, rfl, rfl, rfl, rfl⟩

/-- C10, refuted: `_` is not a letter of the alphabet, upper-casing leaves it
unchanged, the code `RI` holds letters of the alphabet only, and the `LIKE`
term of `_` adds 1 to the score of `RI`; so does the term of `%`. -/
theorem coincide_wildcard_counts :
    '_' ∉ alfabeto ∧ Char.toUpper '_' = '_' ∧ (∀ x ∈ "RI".data, x ∈ alfabeto) ∧
      coincide "RI" '_' = 1 ∧ coincide "RI" '%' = 1 ∧
      puntaje '_' 'X' 'Y' "RI" = 1 ∧ puntaje '_' 'X' 'Y' "" = 0 := by
  decide

/-- C10, amended: for a character that is neither a letter of the alphabet nor
one of the `LIKE` wildcards `%` and `_`, and a candidate whose code holds
letters of the alphabet only, the `LIKE` term of the character is 0, so the
score is the sum of the two other terms, in whichever position the character
stands. -/
theorem coincide_outside_alphabet_zero (c : Char) (riasec : String)
    (hc : c ∉ alfabeto) (hp : c ≠ '%') (hu : c ≠ '_')
    (hr : ∀ x ∈ riasec.data, x ∈ alfabeto) :
    coincide riasec c = 0 ∧
      ∀ a b : Char, puntaje c a b riasec = coincide riasec a + coincide riasec b ∧
        puntaje a c b riasec = coincide riasec a + coincide riasec b ∧
        puntaje a b c riasec = coincide riasec a + coincide riasec b := by
  have h0 : coincide riasec c = 0 := by
    by_cases hb : c = '\\'
    · subst hb
      have hl : like ['%', '\\', '%'] riasec.data = false := by
        rw [like_cons_percent, List.any_eq_false]
        intro s hs
        have hsuf : ∀ x ∈ s, x ∈ alfabeto := by
          intro x hx
          exact hr x (((List.mem_tails _ _).1 hs).subset hx)
        cases s with
        | nil => simp [like, likeAux]
        | cons x u =>
          have hx : x ≠ '%' := by
            intro e
            have := hsuf x (List.mem_cons_self _ _)
            rw [e] at this
            exact absurd this (by decide)
          simp [like, likeAux, hx]
      simp [coincide, hl]
    · rw [coincide_literal c ⟨hp, hu, hb⟩]
      have : c ∉ riasec.data := fun hm => hc (hr c hm)
      simp [this]
  refine ⟨h0, fun a b => ?_⟩
  simp only [puntaje, h0]
  omega

/-- C10 amended, at the character `X` and the code `RI`. -/
theorem coincide_outside_alphabet_zero_witness :
    'X' ∉ alfabeto ∧ 'X' ≠ '%' ∧ 'X' ≠ '_' ∧ (∀ x ∈ "RI".data, x ∈ alfabeto) ∧
      coincide "RI" 'X' = 0 :=
  ⟨by decide, by decide, by decide, by decide,
    (coincide_outside_alphabet_zero 'X' "RI" (by decide) (by decide) (by decide)
      (by decide)).1⟩

end Vocacion
